import Mathlib

/-!
Verification of the reference-image selection, prompt composition, request
routing, response handling and gallery rendering of `src/index.tsx`.
The TypeScript program is shallowly embedded: DOM state that the functions
read (the five reference-image slots, the four character checkboxes, the
prompt field and the aspect-ratio selector) is passed explicitly, the
outcome of the remote call is passed as an explicit environment value,
fallible code returns `Except`, and JavaScript truthiness of optional
strings is made explicit.
-/

/-- A stored reference image: base64 payload plus MIME type
(interface `ReferenceImage` in `src/index.tsx`). -/
structure ReferenceImage where
  base64 : String
  mimeType : String
deriving DecidableEq, Repr

/-- One character upload slot: the stored image (`referenceImages[id]`,
`null` modelled as `none`) together with its inclusion checkbox
(`checkbox-charI.checked`). -/
structure CharSlot where
  image : Option ReferenceImage
  checked : Bool
deriving DecidableEq, Repr

/-- The reference-image store together with the checkbox state read by
`getSelectedImages`: slots `char1..char4` and `bg`. -/
structure RefStore where
  char1 : CharSlot
  char2 : CharSlot
  char3 : CharSlot
  char4 : CharSlot
  bg : Option ReferenceImage
deriving DecidableEq, Repr

/-- The contribution of one character slot to the selection:
`if (checkbox.checked && referenceImages[id]) selected.push(...)`. -/
def charContribution (s : CharSlot) : List ReferenceImage :=
  match s.checked, s.image with
  | true, some img => [img]
  | _, _ => []

/-- `getSelectedImages` (src/index.tsx lines 137-155): the background image
first if present, then the checked-and-present character slots in order. -/
def getSelectedImages (st : RefStore) : List ReferenceImage :=
  (match st.bg with
   | some b => [b]
   | none => []) ++
  charContribution st.char1 ++ charContribution st.char2 ++
  charContribution st.char3 ++ charContribution st.char4

/-- The selection list as the spec words it: the background image first if
and only if present, followed by the character slots 1..4 in order, a slot
contributing if and only if its checkbox is checked AND an image is present
for that slot. -/
def selectionSpec (st : RefStore) : List ReferenceImage :=
  st.bg.toList ++
    ([st.char1, st.char2, st.char3, st.char4].filterMap
      fun s => if s.checked ∧ s.image.isSome then s.image else none)

/-- The five aspect-ratio values of the selector (`type AspectRatio`). -/
inductive AspectRatio
  | r1x1
  | r16x9
  | r9x16
  | r4x3
  | r3x4
deriving DecidableEq, Repr

/-- The string value of an aspect-ratio option, as interpolated into the
final prompt and the text-to-image request. -/
def AspectRatio.value : AspectRatio → String
  | .r1x1 => "1:1"
  | .r16x9 => "16:9"
  | .r9x16 => "9:16"
  | .r4x3 => "4:3"
  | .r3x4 => "3:4"

/-- The background instruction pushed when `hasBg` (line 188). -/
def bgInstruction : String :=
  "Use the first provided image as the main background. Critically, you must remove any people from this image, using only the scenery as the background for the final composition."

/-- `numCharacters === 1 ? 'character' : 'characters'` (line 192). -/
def charText (numCharacters : Nat) : String :=
  if numCharacters = 1 then "character" else "characters"

/-- The character instruction used when a background is also present
(line 194). -/
def integrateInstruction (n : Nat) : String :=
  "Integrate the " ++ toString n ++ " " ++ charText n ++ " from the other reference images into the background scene."

/-- The character instruction used when no background is present
(line 196). -/
def combineInstruction (n : Nat) : String :=
  "Combine the " ++ toString n ++ " " ++ charText n ++ " from the reference images into a single cohesive scene based on the text prompt."

/-- The fixed no-duplication instruction (line 198). -/
def dupInstruction : String :=
  "Crucially, ensure each distinct character appears only once in the final image and that no characters are omitted or duplicated."

/-- `hasBg = selectedImages.length > 0 && referenceImages.bg === selectedImages[0]`
(line 183); `===` against a `null` background is false. -/
def hasBgCheck (bg : Option ReferenceImage) (selected : List ReferenceImage) : Bool :=
  decide (0 < selected.length) &&
    match bg, selected with
    | some b, x :: _ => b == x
    | _, _ => false

/-- `numCharacters = hasBg ? selectedImages.length - 1 : selectedImages.length`
(line 184). -/
def numCharactersFor (bg : Option ReferenceImage) (selected : List ReferenceImage) : Nat :=
  if hasBgCheck bg selected then selected.length - 1 else selected.length

/-- The `instructions` array built at lines 185-199. -/
def instructionsFor (bg : Option ReferenceImage) (selected : List ReferenceImage) : List String :=
  let hb := hasBgCheck bg selected
  let n := numCharactersFor bg selected
  (if hb then [bgInstruction] else []) ++
    (if 0 < n then
      [(if hb then integrateInstruction n else combineInstruction n), dupInstruction]
     else [])

/-- The final prompt built at lines 201-205: the user prompt, prefixed by
the joined instructions and the creative-brief label when instructions are
non-empty, followed by the aspect-ratio sentence. -/
def finalPromptFor (bg : Option ReferenceImage) (selected : List ReferenceImage)
    (prompt : String) (ratio : AspectRatio) : String :=
  let instructions := instructionsFor bg selected
  let fp :=
    if 0 < instructions.length then
      String.intercalate " " instructions ++ "\n\nHere is the creative brief: \"" ++ prompt ++ "\""
    else
      prompt
  fp ++ "\n\nFinally, the image must have a " ++ ratio.value ++ " aspect ratio."

/-- One inline-data image part of the composition request
(`{ inlineData: { data, mimeType } }`, lines 178-180). -/
structure ImagePart where
  data : String
  mimeType : String
deriving DecidableEq, Repr

/-- The request issued by `generateAndDisplayImages`: either the
composition call (`ai.models.generateContent`, lines 207-218) or the
text-to-image call (`ai.models.generateImages`, lines 237-245). -/
inductive Request
  | composition (parts : List ImagePart) (text : String)
  | textToImage (prompt : String) (numberOfImages : Nat) (aspectRatio : String)
      (outputMimeType : String)
deriving DecidableEq, Repr

/-- The request built by `generateAndDisplayImages` from the current state,
prompt and aspect ratio (lines 172-245): composition mode when
`selectedImages.length > 0`, else text-to-image mode with
`numberOfImages: 3` and `outputMimeType: 'image/jpeg'`. -/
def buildRequest (st : RefStore) (prompt : String) (ratio : AspectRatio) : Request :=
  let selectedImages := getSelectedImages st
  if 0 < selectedImages.length then
    .composition
      (selectedImages.map fun img => { data := img.base64, mimeType := img.mimeType })
      (finalPromptFor st.bg selectedImages prompt ratio)
  else
    .textToImage prompt 3 ratio.value "image/jpeg"

/-- JavaScript truthiness of an optional string: `undefined` and the empty
string are falsy. -/
def truthyStr : Option String → Bool
  | some s => !(s == "")
  | none => false

/-- The `inlineData` of one response content part (`data` and `mimeType`
are optional in the API type). -/
structure InlineData where
  data : Option String
  mimeType : Option String
deriving DecidableEq, Repr

/-- One content part of the composition response: inline binary data
and/or text. -/
structure ResponsePart where
  inlineData : Option InlineData
  text : Option String
deriving DecidableEq, Repr

/-- One entry given to `displayImages`
(`Partial<GeneratedImage>`: `image?: { imageBytes?, mimeType? }`). -/
structure ImageData where
  imageBytes : Option String
  mimeType : Option String
deriving DecidableEq, Repr

/-- A generated-image result entry, with every field optional as in the
`Partial<GeneratedImage>` lists the renderer receives. -/
structure GeneratedImage where
  image : Option ImageData
deriving DecidableEq, Repr

/-- JavaScript `Array.prototype.join(' ')`. -/
def joinSpace : List String → String
  | [] => ""
  | s :: rest =>
    match rest with
    | [] => s
    | _ :: _ => s ++ " " ++ joinSpace rest

/-- The fallback used when the model returns no image and no usable text
(line 231). -/
def fallbackNoImage : String := "No image was generated by the model."

/-- The truthy-text parts of the response
(`parts.filter(p => p.text).map(p => p.text)`, lines 230-231): a part
counts as textual iff its text exists and is non-empty. -/
def textualParts (parts : List ResponsePart) : List String :=
  (parts.filter fun p => truthyStr p.text).filterMap (fun p => p.text)

/-- Composition-response handling (lines 220-233): keep the parts carrying
inline data; if any exist map them to generated images, otherwise fail with
the joined truthy text (or the fallback when that join is empty). The
response is `none` when the optional chain
`candidates?.[0]?.content?` is absent. -/
def processCompositionResponse (resp : Option (List ResponsePart)) :
    Except String (List GeneratedImage) :=
  match resp with
  | none => .error fallbackNoImage
  | some parts =>
    let imageParts := parts.filter fun p => p.inlineData.isSome
    if 0 < imageParts.length then
      .ok (imageParts.map fun p =>
        { image := some { imageBytes := (p.inlineData.map InlineData.data).join,
                          mimeType := (p.inlineData.map InlineData.mimeType).join } })
    else
      .error
        (let modelTextResponse := joinSpace (textualParts parts)
         if modelTextResponse == "" then fallbackNoImage else modelTextResponse)

/-- The message shown when the result list is absent or empty (line 266). -/
def noImagesMessage : String := "No images were generated or the response was empty."

/-- The generic fallback for a thrown value that is not an `Error`
(line 252). -/
def genericErrorFallback : String := "Could not load images. Please check the console for details."

/-- One gallery entry built at lines 277-305: the image element's source
and alt text, and the download control's target filename. -/
structure GalleryItem where
  src : String
  alt : String
  downloadFilename : String
deriving DecidableEq, Repr

/-- The contents of the `image-gallery` element after rendering: either a
single message div (`setMessage`, lines 157-162) or the list of gallery
items. -/
inductive GalleryView
  | message (text : String) (isError : Bool)
  | items (items : List GalleryItem)
deriving DecidableEq, Repr

/-- JavaScript `String.prototype.split` with a one-character separator:
the list of (possibly empty) segments between occurrences of the
separator; splitting the empty string yields one empty segment. -/
def jsSplitChar (c : Char) : List Char → List (List Char)
  | [] => [[]]
  | x :: xs =>
    match jsSplitChar c xs with
    | [] => [[]]
    | seg :: rest => if x = c then [] :: seg :: rest else (x :: seg) :: rest

/-- `mimeType.split('/')[1] || 'jpeg'` (line 273): the segment after the
first slash, defaulting to `jpeg` when absent or empty. -/
def extensionOf (mimeType : String) : String :=
  match (jsSplitChar '/' mimeType.data).get? 1 with
  | some e => if e.isEmpty then "jpeg" else String.mk e
  | none => "jpeg"

/-- Whether a result entry carries image bytes
(`generatedImage.image?.imageBytes` truthy, line 271). -/
def carriesBytes (gi : GeneratedImage) : Bool :=
  match gi.image with
  | some d => truthyStr d.imageBytes
  | none => false

/-- `generatedImage.image.mimeType || 'image/jpeg'` (line 272): the stored
MIME type unless it is absent or empty. -/
def mimeDefaulted : Option String → String
  | some m => if m == "" then "image/jpeg" else m
  | none => "image/jpeg"

/-- Rendering of one result entry at its original index (lines 270-306):
entries without truthy image bytes yield nothing; otherwise the MIME type
defaults to `image/jpeg`, the data reference embeds the bytes, and the
download filename is `generated-image-<index+1>.<extension>`. -/
def renderItem (gi : GeneratedImage) (index : Nat) : Option GalleryItem :=
  match gi.image with
  | none => none
  | some d =>
    if truthyStr d.imageBytes then
      let mimeType := mimeDefaulted d.mimeType
      some
        { src := "data:" ++ mimeType ++ ";base64," ++ d.imageBytes.getD "",
          alt := "Generated Image " ++ toString (index + 1),
          downloadFilename :=
            "generated-image-" ++ toString (index + 1) ++ "." ++ extensionOf mimeType }
    else
      none

/-- `displayImages` (lines 259-308): clears the gallery, shows the
no-images message for an absent or empty list, and otherwise renders each
entry at its position in the original list. -/
def displayImages (generatedImages : Option (List GeneratedImage)) : GalleryView :=
  match generatedImages with
  | none => .message noImagesMessage false
  | some imgs =>
    if imgs.length = 0 then .message noImagesMessage false
    else .items (imgs.enum.filterMap fun p => renderItem p.2 p.1)

/-- A JavaScript thrown value: an `Error` object with its `message`, or any
non-`Error` value. -/
inductive ThrownValue
  | errorObj (message : String)
  | nonError
deriving DecidableEq, Repr

/-- The outcome of one awaited remote call: a value or a thrown value. -/
inductive NetResult (α : Type)
  | ok (a : α)
  | thrown (e : ThrownValue)
deriving DecidableEq, Repr

/-- The environment of one submit: what each of the two remote calls would
deliver if issued. -/
structure Env where
  compositionResult : NetResult (Option (List ResponsePart))
  textToImageResult : NetResult (Option (List GeneratedImage))

/-- `error instanceof Error ? error.message : '...'` (line 252). -/
def errorMessageOf : ThrownValue → String
  | .errorObj m => m
  | .nonError => genericErrorFallback

/-- The final UI state after `generateAndDisplayImages` returns: whether
the submit control is disabled and what the gallery shows. -/
structure UIState where
  generateBtnDisabled : Bool
  gallery : GalleryView
deriving DecidableEq, Repr

/-- The body of the `try` block (lines 172-248): route by selection
emptiness, run the corresponding call, render images or throw. -/
def runOutcome (st : RefStore) (env : Env) : Except ThrownValue GalleryView :=
  let selectedImages := getSelectedImages st
  if 0 < selectedImages.length then
    match env.compositionResult with
    | .thrown e => .error e
    | .ok resp =>
      match processCompositionResponse resp with
      | .error msg => .error (.errorObj msg)
      | .ok images => .ok (displayImages (some images))
  else
    match env.textToImageResult with
    | .thrown e => .error e
    | .ok imgs => .ok (displayImages imgs)

/-- The `catch`/`finally` steps (lines 250-256): any thrown value is
rendered as `Error: <message>` and the button is re-enabled on every
path. -/
def finishWith : Except ThrownValue GalleryView → UIState
  | .ok view => { generateBtnDisabled := false, gallery := view }
  | .error e =>
      { generateBtnDisabled := false,
        gallery := .message ("Error: " ++ errorMessageOf e) true }

/-- `generateAndDisplayImages` (lines 164-257): the `try` body followed by
the `catch`/`finally` handling. The prompt and aspect ratio shape the
request (see `buildRequest`); the delivered response is taken from the
environment. -/
def generateAndDisplayImages (st : RefStore) (_prompt : String) (_ratio : AspectRatio)
    (env : Env) : UIState :=
  finishWith (runOutcome st env)

/-- An empty, unchecked character slot. -/
def emptySlot : CharSlot := { image := none, checked := false }

/-- A concrete PNG reference image. -/
def pngImage : ReferenceImage := { base64 := "aaa", mimeType := "image/png" }

/-- A second concrete PNG reference image. -/
def pngImage2 : ReferenceImage := { base64 := "ccc", mimeType := "image/png" }

/-- A concrete JPEG reference image. -/
def jpegImage : ReferenceImage := { base64 := "bbb", mimeType := "image/jpeg" }

/-- A state with a background image and character slot 1 checked with an
image. -/
def stBgChar1 : RefStore :=
  { char1 := { image := some pngImage, checked := true },
    char2 := emptySlot, char3 := emptySlot, char4 := emptySlot,
    bg := some jpegImage }

/-- A state holding only a background image. -/
def stBgOnly : RefStore :=
  { char1 := emptySlot, char2 := emptySlot, char3 := emptySlot,
    char4 := emptySlot, bg := some jpegImage }

/-- A state with character slots 1 and 2 checked with images and no
background. -/
def stTwoChars : RefStore :=
  { char1 := { image := some pngImage, checked := true },
    char2 := { image := some pngImage2, checked := true },
    char3 := emptySlot, char4 := emptySlot, bg := none }

/-- A state with every slot empty. -/
def stEmpty : RefStore :=
  { char1 := emptySlot, char2 := emptySlot, char3 := emptySlot,
    char4 := emptySlot, bg := none }

/-- A concrete result entry carrying bytes with MIME type `image/png`. -/
def pngResult : GeneratedImage :=
  { image := some { imageBytes := some "xyz", mimeType := some "image/png" } }

/-- A concrete result entry carrying no image bytes. -/
def noBytesResult : GeneratedImage := { image := none }

/-- A concrete text-only response part (a model refusal). -/
def refusalPart : ResponsePart := { inlineData := none, text := some "refused" }

/-- An environment whose text-to-image call throws an `Error` with message
`boom`. -/
def envBoom : Env :=
  { compositionResult := .ok none,
    textToImageResult := .thrown (.errorObj "boom") }

lemma charContribution_eq (s : CharSlot) :
    charContribution s =
      (if s.checked ∧ s.image.isSome then s.image else none).toList := by
  obtain ⟨i, c⟩ := s
  cases c <;> cases i <;> simp [charContribution]

/-- C1: for every state of the five slots and the four checkboxes, the
selection resolver returns exactly the background image first iff present,
followed by the character slots 1..4 in slot order, a character slot
contributing iff its checkbox is checked and an image is present;
unchecked-but-present and checked-but-empty slots are excluded. -/
theorem getSelectedImages_matches_selectionSpec (st : RefStore) :
    getSelectedImages st = selectionSpec st := by
  obtain ⟨s1, s2, s3, s4, bg⟩ := st
  simp only [getSelectedImages, selectionSpec, charContribution_eq,
    List.filterMap_cons, List.filterMap_nil]
  cases h1 : (if s1.checked ∧ s1.image.isSome then s1.image else none) <;>
  cases h2 : (if s2.checked ∧ s2.image.isSome then s2.image else none) <;>
  cases h3 : (if s3.checked ∧ s3.image.isSome then s3.image else none) <;>
  cases h4 : (if s4.checked ∧ s4.image.isSome then s4.image else none) <;>
  cases bg <;> simp [Option.toList]

lemma hasBgCheck_of_bg_some (st : RefStore) (b : ReferenceImage) (h : st.bg = some b) :
    hasBgCheck st.bg (getSelectedImages st) = true := by
  simp [hasBgCheck, getSelectedImages, h]

lemma hasBgCheck_of_bg_none (st : RefStore) (h : st.bg = none) :
    hasBgCheck st.bg (getSelectedImages st) = false := by
  cases hsel : getSelectedImages st <;> simp [hasBgCheck, h]

lemma instructionsFor_ne_nil (st : RefStore)
    (h : getSelectedImages st ≠ []) :
    instructionsFor st.bg (getSelectedImages st) ≠ [] := by
  unfold instructionsFor
  cases hb : hasBgCheck st.bg (getSelectedImages st) <;> simp
  intro hn
  rcases hsel : getSelectedImages st with _ | ⟨x, rest⟩
  · exact h hsel
  · rw [numCharactersFor, hb, hsel] at hn
    simp at hn

/-- C2: for every state with a non-empty selection, `hasBackground` is true
iff the first selected image equals the stored background image;
`numCharacters` is the selection length minus one if `hasBackground`, else
the selection length; and the final prompt is the instructions joined by
single spaces, two newlines, the quoted user prompt labeled as the creative
brief, and a closing sentence fixing the aspect ratio to the chosen value. -/
theorem finalPrompt_structure (st : RefStore) (prompt : String) (ratio : AspectRatio)
    (h : getSelectedImages st ≠ []) :
    (hasBgCheck st.bg (getSelectedImages st) = true ↔
      (getSelectedImages st).head? = st.bg ∧ st.bg.isSome) ∧
    numCharactersFor st.bg (getSelectedImages st) =
      (if hasBgCheck st.bg (getSelectedImages st) then
        (getSelectedImages st).length - 1
       else (getSelectedImages st).length) ∧
    finalPromptFor st.bg (getSelectedImages st) prompt ratio =
      String.intercalate " " (instructionsFor st.bg (getSelectedImages st)) ++
        "\n\nHere is the creative brief: \"" ++ prompt ++ "\"" ++
        "\n\nFinally, the image must have a " ++ ratio.value ++ " aspect ratio." := by
  refine ⟨?_, rfl, ?_⟩
  · constructor
    · intro hb
      cases hbg : st.bg with
      | none => rw [hasBgCheck_of_bg_none st hbg] at hb; exact absurd hb (by simp)
      | some b =>
          refine ⟨?_, by simp⟩
          have : getSelectedImages st = b :: (charContribution st.char1 ++
              charContribution st.char2 ++ charContribution st.char3 ++
              charContribution st.char4) := by
            simp [getSelectedImages, hbg]
          rw [this]
          simp [hbg]
    · rintro ⟨hhead, hsome⟩
      rcases Option.isSome_iff_exists.mp hsome with ⟨b, hbg⟩
      exact hasBgCheck_of_bg_some st b hbg
  · have hne := instructionsFor_ne_nil st h
    rw [finalPromptFor]
    have : 0 < (instructionsFor st.bg (getSelectedImages st)).length :=
      List.length_pos.mpr hne
    simp only [this, if_pos]

/-- Witness for C2 at a concrete state: background slot present, character
slot 1 checked with an image. -/
theorem finalPrompt_structure_witness :
    (getSelectedImages stBgChar1 ≠ []) ∧
    finalPromptFor stBgChar1.bg (getSelectedImages stBgChar1) "P" .r16x9 =
      String.intercalate " " (instructionsFor stBgChar1.bg (getSelectedImages stBgChar1)) ++
        "\n\nHere is the creative brief: \"" ++ "P" ++ "\"" ++
        "\n\nFinally, the image must have a " ++ AspectRatio.value .r16x9 ++ " aspect ratio." :=
  ⟨by decide, (finalPrompt_structure stBgChar1 "P" .r16x9 (by decide)).2.2⟩

lemma integrateInstruction_head (n : Nat) :
    (integrateInstruction n).data.head? = some 'I' := by
  unfold integrateInstruction
  rw [String.data_append, String.data_append, String.data_append, String.data_append]
  simp [List.head?_append]

lemma combineInstruction_head (n : Nat) :
    (combineInstruction n).data.head? = some 'C' := by
  unfold combineInstruction
  rw [String.data_append, String.data_append, String.data_append, String.data_append]
  simp [List.head?_append]

lemma bgInstruction_ne_integrateInstruction (n : Nat) :
    bgInstruction ≠ integrateInstruction n := by
  intro h
  have hh : bgInstruction.data.head? = (integrateInstruction n).data.head? := by rw [h]
  rw [integrateInstruction_head] at hh
  exact absurd hh (by decide)

lemma bgInstruction_ne_combineInstruction (n : Nat) :
    bgInstruction ≠ combineInstruction n := by
  intro h
  have hh : bgInstruction.data.head? = (combineInstruction n).data.head? := by rw [h]
  rw [combineInstruction_head] at hh
  exact absurd hh (by decide)

/-- C8: when the selection is exactly the stored background image
(`hasBackground` true, `numCharacters` 0), the instruction list of the
composed prompt is exactly the background-removal instruction: it contains
no character-integration instruction (neither variant, for any character
count) and no no-duplication instruction. -/
theorem backgroundOnly_instructions (st : RefStore) (b : ReferenceImage)
    (hbg : st.bg = some b) (hsel : getSelectedImages st = [b]) :
    instructionsFor st.bg (getSelectedImages st) = [bgInstruction] ∧
    (∀ n, integrateInstruction n ∉ instructionsFor st.bg (getSelectedImages st)) ∧
    (∀ n, combineInstruction n ∉ instructionsFor st.bg (getSelectedImages st)) ∧
    dupInstruction ∉ instructionsFor st.bg (getSelectedImages st) := by
  have heq : instructionsFor st.bg (getSelectedImages st) = [bgInstruction] := by
    rw [hsel, hbg]
    simp [instructionsFor, numCharactersFor, hasBgCheck]
  refine ⟨heq, ?_, ?_, ?_⟩
  · intro n hmem
    rw [heq, List.mem_singleton] at hmem
    exact bgInstruction_ne_integrateInstruction n hmem.symm
  · intro n hmem
    rw [heq, List.mem_singleton] at hmem
    exact bgInstruction_ne_combineInstruction n hmem.symm
  · intro hmem
    rw [heq, List.mem_singleton] at hmem
    exact absurd hmem (by decide)

/-- Witness for C8: a state holding only a background image. -/
theorem backgroundOnly_instructions_witness :
    (stBgOnly.bg = some jpegImage ∧ getSelectedImages stBgOnly = [jpegImage]) ∧
    instructionsFor stBgOnly.bg (getSelectedImages stBgOnly) = [bgInstruction] :=
  ⟨⟨by decide, by decide⟩,
    (backgroundOnly_instructions stBgOnly jpegImage (by decide) (by decide)).1⟩

/-- C9: when the selection is exactly two character images and no
background, the composed prompt's instruction list is the "Combine the 2
characters" sentence (plural form) followed by the fixed instruction that
each distinct character appears exactly once. -/
theorem twoCharacters_instructions (st : RefStore)
    (hbg : st.bg = none) (hlen : (getSelectedImages st).length = 2) :
    instructionsFor st.bg (getSelectedImages st) =
      ["Combine the 2 characters from the reference images into a single cohesive scene based on the text prompt.",
       "Crucially, ensure each distinct character appears only once in the final image and that no characters are omitted or duplicated."] := by
  have hb := hasBgCheck_of_bg_none st hbg
  have hn : numCharactersFor st.bg (getSelectedImages st) = 2 := by
    rw [numCharactersFor, hb]
    simpa using hlen
  rw [instructionsFor, hb, hn]
  simp only [if_neg (by decide : ¬(false = true)), List.nil_append,
    if_pos (by decide : 0 < 2)]
  have h2 : combineInstruction 2 =
      "Combine the 2 characters from the reference images into a single cohesive scene based on the text prompt." := by
    decide
  rw [h2]
  rfl

/-- Witness for C9: character slots 1 and 2 checked with images, no
background. -/
theorem twoCharacters_instructions_witness :
    (stTwoChars.bg = none ∧ (getSelectedImages stTwoChars).length = 2) ∧
    instructionsFor stTwoChars.bg (getSelectedImages stTwoChars) =
      ["Combine the 2 characters from the reference images into a single cohesive scene based on the text prompt.",
       "Crucially, ensure each distinct character appears only once in the final image and that no characters are omitted or duplicated."] :=
  ⟨⟨by decide, by decide⟩,
    twoCharacters_instructions stTwoChars (by decide) (by decide)⟩

/-- C3: routing is decided solely by emptiness of the selection list: an
empty selection goes to text-to-image mode with the prompt unmodified,
exactly 3 requested images, the chosen aspect ratio and JPEG output; a
non-empty selection goes to composition mode with one image part per
selected image (in order) and the composed prompt. -/
theorem request_routing (st : RefStore) (prompt : String) (ratio : AspectRatio) :
    buildRequest st prompt ratio =
      if getSelectedImages st = [] then
        Request.textToImage prompt 3 ratio.value "image/jpeg"
      else
        Request.composition
          ((getSelectedImages st).map fun img => { data := img.base64, mimeType := img.mimeType })
          (finalPromptFor st.bg (getSelectedImages st) prompt ratio) := by
  rw [buildRequest]
  rcases h : getSelectedImages st with _ | ⟨x, rest⟩ <;> simp [h]

/-- C6: for an absent or empty result list, the gallery renderer shows the
neutral no-images message and creates no image elements (the resulting
view is not an item list, and the prior content is replaced since the view
is a function of the result list alone). -/
theorem emptyResults_display :
    displayImages none = .message noImagesMessage false ∧
    displayImages (some []) = .message noImagesMessage false ∧
    (∀ its : List GalleryItem, displayImages none ≠ .items its) ∧
    (∀ its : List GalleryItem, displayImages (some []) ≠ .items its) ∧
    noImagesMessage = "No images were generated or the response was empty." := by
  refine ⟨rfl, rfl, ?_, ?_, rfl⟩ <;> intro its h <;> simp [displayImages] at h

lemma renderItem_eq_none (gi : GeneratedImage) (i : Nat)
    (h : carriesBytes gi = false) : renderItem gi i = none := by
  cases hgi : gi.image with
  | none => simp [renderItem, hgi]
  | some d =>
      have ht : truthyStr d.imageBytes = false := by
        simpa [carriesBytes, hgi] using h
      simp [renderItem, hgi, ht]

/-- C10: for a non-empty result list in which no entry carries image
bytes, the renderer clears the gallery and renders nothing: the resulting
view is the empty item list, not the no-images message. -/
theorem allSkipped_display (imgs : List GeneratedImage) (hne : imgs ≠ [])
    (hnb : ∀ gi ∈ imgs, carriesBytes gi = false) :
    displayImages (some imgs) = .items [] := by
  have hlen : ¬ imgs.length = 0 := by
    simpa [List.length_eq_zero] using hne
  simp only [displayImages, if_neg hlen]
  congr 1
  rw [List.filterMap_eq_nil_iff]
  rintro ⟨i, gi⟩ hp
  rw [List.mk_mem_enum_iff_getElem?] at hp
  have hmem : gi ∈ imgs := by
    apply List.get?_mem
    rw [List.get?_eq_getElem?]
    exact hp
  exact renderItem_eq_none gi i (hnb gi hmem)

/-- Witness for C10: a singleton list whose entry has no image data. -/
theorem allSkipped_display_witness :
    (([noBytesResult] : List GeneratedImage) ≠ [] ∧
      ∀ gi ∈ [noBytesResult], carriesBytes gi = false) ∧
    displayImages (some [noBytesResult]) = .items [] :=
  ⟨⟨by decide, by decide⟩, allSkipped_display [noBytesResult] (by decide) (by decide)⟩

/-- C5: every result entry that carries image bytes yields a gallery item
of the final view whose download filename is
`generated-image-<1-based original index>.<extension derived from the
defaulted MIME type>`; the index is the entry's position in the original
result list, so skipped entries still consume an index. -/
theorem download_filename (imgs : List GeneratedImage) (i : Nat) (gi : GeneratedImage)
    (d : ImageData)
    (hget : imgs.get? i = some gi) (himg : gi.image = some d)
    (hbytes : truthyStr d.imageBytes = true) :
    ∃ item : GalleryItem,
      renderItem gi i = some item ∧
      item.downloadFilename =
        "generated-image-" ++ toString (i + 1) ++ "." ++
          extensionOf (mimeDefaulted d.mimeType) ∧
      ∃ items, displayImages (some imgs) = GalleryView.items items ∧ item ∈ items := by
  have hrender : renderItem gi i =
      some { src := "data:" ++ mimeDefaulted d.mimeType ++ ";base64," ++ d.imageBytes.getD "",
             alt := "Generated Image " ++ toString (i + 1),
             downloadFilename :=
               "generated-image-" ++ toString (i + 1) ++ "." ++
                 extensionOf (mimeDefaulted d.mimeType) } := by
    simp [renderItem, himg, hbytes]
  refine ⟨_, hrender, rfl, ?_⟩
  have hlen : ¬ imgs.length = 0 := by
    intro h0
    rw [List.length_eq_zero] at h0
    rw [h0] at hget
    simp at hget
  refine ⟨imgs.enum.filterMap (fun p => renderItem p.2 p.1), ?_, ?_⟩
  · simp only [displayImages, if_neg hlen]
  apply List.mem_filterMap.mpr
  refine ⟨(i, gi), ?_, hrender⟩
  rw [List.mk_mem_enum_iff_getElem?, ← List.get?_eq_getElem?]
  exact hget

/-- Witness for C5: one result with MIME type `image/png` yields download
filename `generated-image-1.png`. -/
theorem download_filename_witness :
    (([pngResult] : List GeneratedImage).get? 0 = some pngResult ∧
      pngResult.image = some { imageBytes := some "xyz", mimeType := some "image/png" } ∧
      truthyStr (some "xyz") = true) ∧
    (∃ item : GalleryItem, renderItem pngResult 0 = some item ∧
      item.downloadFilename = "generated-image-1.png" ∧
      ∃ items, displayImages (some [pngResult]) = GalleryView.items items ∧ item ∈ items) := by
  have h := download_filename [pngResult] 0 pngResult
    { imageBytes := some "xyz", mimeType := some "image/png" }
    (by decide) (by decide) (by decide)
  obtain ⟨item, h1, h2, h3⟩ := h
  refine ⟨⟨by decide, by decide, by decide⟩, ⟨item, h1, ?_, h3⟩⟩
  rw [h2]
  decide

lemma append_ne_empty_of_left (s t : String) (h : s ≠ "") : s ++ t ≠ "" := by
  intro he
  apply h
  apply String.ext
  have hd : (s ++ t).data = "".data := by rw [he]
  rw [String.data_append] at hd
  have h2 : s.data = [] := (List.append_eq_nil.mp (by simpa using hd)).1
  simpa using h2

lemma textualParts_ne_empty (parts : List ResponsePart) :
    ∀ s ∈ textualParts parts, s ≠ "" := by
  intro s hs
  rw [textualParts] at hs
  rcases List.mem_filterMap.mp hs with ⟨p, hp, hpt⟩
  have htr : truthyStr p.text = true := (List.mem_filter.mp hp).2
  rw [hpt] at htr
  simpa [truthyStr, beq_iff_eq] using htr

lemma joinSpace_singleton (s : String) : joinSpace [s] = s := rfl

lemma joinSpace_cons_cons (s t : String) (r : List String) :
    joinSpace (s :: t :: r) = s ++ " " ++ joinSpace (t :: r) := rfl

lemma joinSpace_eq_empty_iff (l : List String) (h : ∀ s ∈ l, s ≠ "") :
    joinSpace l = "" ↔ l = [] := by
  constructor
  · intro hj
    cases l with
    | nil => rfl
    | cons s rest =>
      cases rest with
      | nil =>
          rw [joinSpace_singleton] at hj
          exact absurd hj (h s (by simp))
      | cons t rest2 =>
        exfalso
        have hs : s ≠ "" := h s (by simp)
        have h1 : s ++ " " ≠ "" := append_ne_empty_of_left s " " hs
        rw [joinSpace_cons_cons] at hj
        exact append_ne_empty_of_left (s ++ " ") (joinSpace (t :: rest2)) h1 hj
  · intro hnil
    rw [hnil]
    rfl

lemma process_no_inline (parts : List ResponsePart)
    (hno : ∀ p ∈ parts, p.inlineData = none) :
    processCompositionResponse (some parts) =
      .error (if textualParts parts = [] then fallbackNoImage
              else joinSpace (textualParts parts)) := by
  have hfilter : (parts.filter fun p => p.inlineData.isSome) = [] := by
    rw [List.filter_eq_nil_iff]
    intro p hp
    simp [hno p hp]
  simp only [processCompositionResponse, hfilter]
  norm_num
  by_cases hempty : textualParts parts = []
  · simp [hempty, joinSpace]
  · have hne : joinSpace (textualParts parts) ≠ "" := fun he =>
      hempty ((joinSpace_eq_empty_iff _ (textualParts_ne_empty parts)).mp he)
    simp [hempty, hne, beq_iff_eq]

lemma runOutcome_pos (st : RefStore) (env : Env)
    (hpos : 0 < (getSelectedImages st).length) :
    runOutcome st env =
      match env.compositionResult with
      | .thrown e => .error e
      | .ok resp =>
        match processCompositionResponse resp with
        | .error msg => .error (.errorObj msg)
        | .ok images => .ok (displayImages (some images)) := by
  simp only [runOutcome]
  rw [if_pos hpos]

lemma runOutcome_zero (st : RefStore) (env : Env)
    (hzero : (getSelectedImages st).length = 0) :
    runOutcome st env =
      match env.textToImageResult with
      | .thrown e => .error e
      | .ok imgs => .ok (displayImages imgs) := by
  simp only [runOutcome]
  rw [if_neg (by omega)]

/-- C4: in composition mode, a response whose content parts carry no inline
binary data makes the operation fail; the resulting error message is the
space-joined concatenation of the response's (non-empty) textual parts, or
the generic fallback text if there are none, and the gallery renders that
message as an error, with no images displayed. -/
theorem noInlineData_error (st : RefStore) (prompt : String) (ratio : AspectRatio)
    (tti : NetResult (Option (List GeneratedImage))) (parts : List ResponsePart)
    (hsel : getSelectedImages st ≠ [])
    (hno : ∀ p ∈ parts, p.inlineData = none) :
    generateAndDisplayImages st prompt ratio
        { compositionResult := .ok (some parts), textToImageResult := tti } =
      { generateBtnDisabled := false,
        gallery := GalleryView.message
          ("Error: " ++
            (if textualParts parts = [] then fallbackNoImage
             else joinSpace (textualParts parts))) true } := by
  have hpos : 0 < (getSelectedImages st).length := List.length_pos.mpr hsel
  rw [generateAndDisplayImages,
    runOutcome_pos st { compositionResult := .ok (some parts), textToImageResult := tti } hpos]
  simp only [process_no_inline parts hno]
  rfl

/-- Witness for C4: a non-empty selection and a single text-only refusal
part yield the error message built from the model's text. -/
theorem noInlineData_error_witness :
    (getSelectedImages stBgChar1 ≠ [] ∧
      ∀ p ∈ [refusalPart], p.inlineData = none) ∧
    generateAndDisplayImages stBgChar1 "P" AspectRatio.r1x1
        { compositionResult := .ok (some [refusalPart]),
          textToImageResult := .ok none } =
      { generateBtnDisabled := false,
        gallery := GalleryView.message "Error: refused" true } := by
  refine ⟨⟨by decide, by decide⟩, ?_⟩
  have h := noInlineData_error stBgChar1 "P" AspectRatio.r1x1 (.ok none) [refusalPart]
    (by decide) (by decide)
  rw [h]
  decide

/-- C7: on every outcome of a submit, the button is re-enabled in the final
step; every thrown value (from either remote call) is caught and rendered
as an error message using the error's message, or the generic fallback when
the thrown value is not an `Error`; and the explicit no-image error of
composition mode is rendered the same way. -/
theorem submit_reenabled_and_errors_rendered (st : RefStore) (prompt : String)
    (ratio : AspectRatio) (env : Env) :
    (generateAndDisplayImages st prompt ratio env).generateBtnDisabled = false ∧
    (∀ e : ThrownValue,
      ((0 < (getSelectedImages st).length ∧ env.compositionResult = .thrown e) ∨
       ((getSelectedImages st).length = 0 ∧ env.textToImageResult = .thrown e)) →
      (generateAndDisplayImages st prompt ratio env).gallery =
        .message ("Error: " ++
          (match e with
           | .errorObj m => m
           | .nonError => genericErrorFallback)) true) ∧
    (∀ resp msg, 0 < (getSelectedImages st).length →
      env.compositionResult = .ok resp →
      processCompositionResponse resp = .error msg →
      (generateAndDisplayImages st prompt ratio env).gallery =
        .message ("Error: " ++ msg) true) := by
  refine ⟨?_, ?_, ?_⟩
  · rw [generateAndDisplayImages]
    cases runOutcome st env <;> rfl
  · rintro e (⟨hpos, hc⟩ | ⟨hzero, ht⟩)
    · rw [generateAndDisplayImages, runOutcome_pos st env hpos, hc]
      cases e <;> rfl
    · rw [generateAndDisplayImages, runOutcome_zero st env hzero, ht]
      cases e <;> rfl
  · intro resp msg hpos hok herr
    rw [generateAndDisplayImages, runOutcome_pos st env hpos, hok]
    simp only [herr]
    rfl

/-- Witness for C7: an empty selection whose text-to-image call throws an
`Error` with message `boom`; the button ends re-enabled and the gallery
shows the error. -/
theorem submit_reenabled_witness :
    ((getSelectedImages stEmpty).length = 0 ∧
      envBoom.textToImageResult = .thrown (.errorObj "boom")) ∧
    (generateAndDisplayImages stEmpty "P" AspectRatio.r1x1 envBoom).generateBtnDisabled = false ∧
    (generateAndDisplayImages stEmpty "P" AspectRatio.r1x1 envBoom).gallery =
      GalleryView.message "Error: boom" true := by
  have h := submit_reenabled_and_errors_rendered stEmpty "P" AspectRatio.r1x1 envBoom
  refine ⟨⟨by decide, rfl⟩, h.1, ?_⟩
  have h2 := h.2.1 (.errorObj "boom") (Or.inr ⟨by decide, rfl⟩)
  rw [h2]
  decide
